import Mathlib

/-!
Verification of the CODE-LINGO learning-progress tracker (src/main.py, src/models.py).

The development shallow-embeds the data model and the operations of the
repository:

* `PyDateTime`, `fmtDateTime`, `parseDateTime` — the storage boundary of
  `DataStorage` (src/models.py):  on write `json.dumps(..., default=str)`
  renders a `datetime` as `str(dt)`, i.e. `dt.isoformat(sep=' ')`
  (`YYYY-MM-DD HH:MM:SS[.ffffff]`, the 6-digit fraction omitted when the
  microsecond field is 0); on read `datetime.fromisoformat` parses that text
  back (it accepts any single character as the date/time separator).
  Strings are modelled as `List Char`.
* `Storage.*` — the three record kinds exactly as persisted, and the
  per-record serialize/deserialize pair the adapter applies
  (src/models.py, `DataStorage.load_json` / `save_json`, `save_user`,
  `save_progress`, `save_response`).  JSON transport of ints, strings,
  booleans and string lists is the identity and is modelled as such; only
  the datetime fields are converted at the boundary.
* The endpoint logic (src/main.py) over an abstract timeline: the
  gamification code compares only whole dates (`.date()`, `timedelta(days=1)`)
  and stores instants, so an instant is modelled as `Instant` — a calendar
  day index (`ℤ`, order-isomorphic to Python dates via `toordinal`) plus a
  time-of-day tick.  Python `int` is `ℤ`; Python `//` (floor division) is
  `Int.fdiv`.  `int(x / y)` (binary64 true division then truncation toward
  zero) is modelled two ways, each where it is exact: as `Int.tdiv` of the
  exact quotient for the per-course stats (divisor 3 from the catalog, and
  a single correctly-rounded division for the average — no double rounding
  can cross an integer there), and by a full binary64 rounding model (`fl`)
  for the daily-goal percentage, whose two roundings are observable.
  Python dicts are association lists (`alookup` / `aset`).
-/

/-! ### Association lists: the Python dict operations used by the code -/

/-- Python `d[k]` / `k in d`: first (unique) binding of `k`. -/
def alookup {K V : Type} [DecidableEq K] : List (K × V) → K → Option V
  | [], _ => none
  | (k', v') :: rest, k => if k' = k then some v' else alookup rest k

/-- Python `d[k] = v`: replace the binding in place, or append a new one. -/
def aset {K V : Type} [DecidableEq K] : List (K × V) → K → V → List (K × V)
  | [], k, v => [(k, v)]
  | (k', v') :: rest, k, v =>
      if k' = k then (k, v) :: rest else (k', v') :: aset rest k v

/-! ### Digit rendering and reading (zero-padded decimal fields) -/

/-- The ASCII digit character for `d < 10`. -/
def digitChar (d : Nat) : Char := Char.ofNat (48 + d)

def isDigitC (c : Char) : Bool := 48 ≤ c.toNat && c.toNat ≤ 57

def digitVal (c : Char) : Nat := c.toNat - 48

/-- `v` rendered as exactly `n` zero-padded decimal digits, most significant
first (Python `%04d`-style padding used by `datetime.isoformat`). -/
def padDigits : Nat → Nat → List Char
  | 0, _ => []
  | n + 1, v => digitChar (v / 10 ^ n) :: padDigits n (v % 10 ^ n)

/-- Read exactly `n` decimal digits, folding them onto `acc`; returns the
value and the unconsumed rest of the input. -/
def readDigits : Nat → Nat → List Char → Option (Nat × List Char)
  | 0, acc, cs => some (acc, cs)
  | _ + 1, _, [] => none
  | n + 1, acc, c :: cs =>
      if isDigitC c then readDigits n (acc * 10 + digitVal c) cs else none

/-! ### Python datetimes at the storage boundary -/

/-- A Python `datetime.datetime` value, by its calendar/time fields. -/
structure PyDateTime where
  year : Nat
  month : Nat
  day : Nat
  hour : Nat
  minute : Nat
  second : Nat
  micro : Nat
deriving DecidableEq

/-- Field bounds under which every component prints in its padded width
(every datetime the program constructs satisfies them). -/
def ValidDT (t : PyDateTime) : Prop :=
  t.year < 10000 ∧ t.month < 100 ∧ t.day < 100 ∧ t.hour < 100 ∧
    t.minute < 100 ∧ t.second < 100 ∧ t.micro < 1000000

instance (t : PyDateTime) : Decidable (ValidDT t) := by
  unfold ValidDT; infer_instance

/-- `str(dt)` = `dt.isoformat(sep=' ')`: `YYYY-MM-DD HH:MM:SS`, plus a
6-digit `.ffffff` fraction exactly when the microsecond field is nonzero.
This is what `DataStorage.save_json` writes (`json.dumps(..., default=str)`). -/
def fmtDateTime (t : PyDateTime) : List Char :=
  padDigits 4 t.year ++ '-' ::
    (padDigits 2 t.month ++ '-' ::
      (padDigits 2 t.day ++ ' ' ::
        (padDigits 2 t.hour ++ ':' ::
          (padDigits 2 t.minute ++ ':' ::
            (padDigits 2 t.second ++
              (if t.micro = 0 then [] else '.' :: padDigits 6 t.micro))))))

/-- `datetime.fromisoformat`, restricted to the shapes `fmtDateTime` can
emit: full date, optional time part after any single separator character,
optional 6-digit fraction.  (The 3-digit-fraction and partial-time forms
`fromisoformat` also accepts never arise from the writer and are omitted.) -/
def parseDateTime (cs0 : List Char) : Option PyDateTime :=
  match readDigits 4 0 cs0 with
  | none => none
  | some (y, cs1) =>
  match cs1 with
  | [] => none
  | c1 :: cs2 =>
  if c1 = '-' then
    match readDigits 2 0 cs2 with
    | none => none
    | some (mo, cs3) =>
    match cs3 with
    | [] => none
    | c2 :: cs4 =>
    if c2 = '-' then
      match readDigits 2 0 cs4 with
      | none => none
      | some (d, cs5) =>
      match cs5 with
      | [] => some ⟨y, mo, d, 0, 0, 0, 0⟩
      | _sep :: cs6 =>
        match readDigits 2 0 cs6 with
        | none => none
        | some (h, cs7) =>
        match cs7 with
        | [] => none
        | c3 :: cs8 =>
        if c3 = ':' then
          match readDigits 2 0 cs8 with
          | none => none
          | some (mi, cs9) =>
          match cs9 with
          | [] => none
          | c4 :: cs10 =>
          if c4 = ':' then
            match readDigits 2 0 cs10 with
            | none => none
            | some (s, cs11) =>
            match cs11 with
            | [] => some ⟨y, mo, d, h, mi, s, 0⟩
            | c5 :: cs12 =>
            if c5 = '.' then
              match readDigits 6 0 cs12 with
              | some (us, []) => some ⟨y, mo, d, h, mi, s, us⟩
              | _ => none
            else none
          else none
        else none
    else none
  else none

/-! ### The persisted records and the Storage Adapter conversion (src/models.py)

`save_user` / `save_progress` / `save_response` write `record.dict()` through
`DataStorage.save_json`, which leaves ints, strings, booleans and string
lists unchanged and renders each `datetime` with `str` (`fmtDateTime`);
`DataStorage.load_json` applies `datetime.fromisoformat` (`parseDateTime`)
to exactly the fields `last_active`, `created_at`, `completed_at` (when
non-null) and `timestamp` before the pydantic models are rebuilt. -/

namespace Storage

/-- `models.User` (src/models.py lines 17-30). -/
structure User where
  id : Int
  username : String
  full_name : String
  xp : Int
  coins : Int
  streak : Int
  level : Int
  last_active : PyDateTime
  daily_goal : Int
  daily_xp : Int
  total_lessons_completed : Int
  achievements : List String
  created_at : PyDateTime
deriving DecidableEq

/-- `models.CourseProgress` (src/models.py lines 32-39). -/
structure CourseProgress where
  user_id : Int
  course_id : String
  lesson_id : Int
  completed : Bool
  score : Int
  completed_at : Option PyDateTime
  time_spent : Int
deriving DecidableEq

/-- `models.UserResponse` (src/models.py lines 41-49). -/
structure UserResponse where
  user_id : Int
  course_id : String
  lesson_id : Int
  question_index : Int
  answer_index : Int
  is_correct : Bool
  response_time : Int
  timestamp : PyDateTime
deriving DecidableEq

/-- A user record as it sits in `data/users.json`: datetimes as text. -/
structure StoredUser where
  id : Int
  username : String
  full_name : String
  xp : Int
  coins : Int
  streak : Int
  level : Int
  last_active : List Char
  daily_goal : Int
  daily_xp : Int
  total_lessons_completed : Int
  achievements : List String
  created_at : List Char
deriving DecidableEq

/-- A progress record as it sits in `data/progress.json`; `completed_at`
is `null` (`none`) or datetime text. -/
structure StoredProgress where
  user_id : Int
  course_id : String
  lesson_id : Int
  completed : Bool
  score : Int
  completed_at : Option (List Char)
  time_spent : Int
deriving DecidableEq

/-- A response record as it sits in `data/responses.json`. -/
structure StoredResponse where
  user_id : Int
  course_id : String
  lesson_id : Int
  question_index : Int
  answer_index : Int
  is_correct : Bool
  response_time : Int
  timestamp : List Char
deriving DecidableEq

/-- The write half of the adapter for a user record
(`save_user` → `DataStorage.save_json`, `json.dumps(..., default=str)`). -/
def serializeUser (u : User) : StoredUser :=
  { id := u.id, username := u.username, full_name := u.full_name, xp := u.xp,
    coins := u.coins, streak := u.streak, level := u.level,
    last_active := fmtDateTime u.last_active, daily_goal := u.daily_goal,
    daily_xp := u.daily_xp,
    total_lessons_completed := u.total_lessons_completed,
    achievements := u.achievements, created_at := fmtDateTime u.created_at }

/-- The read half (`DataStorage.load_json` on `USERS_FILE`, lines 63-68:
`fromisoformat` on `last_active` and `created_at`). -/
def deserializeUser (s : StoredUser) : Option User :=
  match parseDateTime s.last_active, parseDateTime s.created_at with
  | some la, some ca =>
      some { id := s.id, username := s.username, full_name := s.full_name,
             xp := s.xp, coins := s.coins, streak := s.streak,
             level := s.level, last_active := la, daily_goal := s.daily_goal,
             daily_xp := s.daily_xp,
             total_lessons_completed := s.total_lessons_completed,
             achievements := s.achievements, created_at := ca }
  | _, _ => none

/-- Write half for a progress record (`save_progress`); `None` becomes
JSON `null`, a datetime becomes its text form. -/
def serializeProgress (p : CourseProgress) : StoredProgress :=
  { user_id := p.user_id, course_id := p.course_id, lesson_id := p.lesson_id,
    completed := p.completed, score := p.score,
    completed_at := p.completed_at.map fmtDateTime,
    time_spent := p.time_spent }

/-- Read half (`load_json` on `PROGRESS_FILE`, lines 69-72: `fromisoformat`
on `completed_at` only when it is present and non-null). -/
def deserializeProgress (s : StoredProgress) : Option CourseProgress :=
  match s.completed_at with
  | none =>
      some { user_id := s.user_id, course_id := s.course_id,
             lesson_id := s.lesson_id, completed := s.completed,
             score := s.score, completed_at := none,
             time_spent := s.time_spent }
  | some txt =>
      match parseDateTime txt with
      | some t =>
          some { user_id := s.user_id, course_id := s.course_id,
                 lesson_id := s.lesson_id, completed := s.completed,
                 score := s.score, completed_at := some t,
                 time_spent := s.time_spent }
      | none => none

/-- Write half for a quiz-response record (`save_response`). -/
def serializeResponse (r : UserResponse) : StoredResponse :=
  { user_id := r.user_id, course_id := r.course_id, lesson_id := r.lesson_id,
    question_index := r.question_index, answer_index := r.answer_index,
    is_correct := r.is_correct, response_time := r.response_time,
    timestamp := fmtDateTime r.timestamp }

/-- Read half (`load_json` on `RESPONSES_FILE`, lines 73-76). -/
def deserializeResponse (s : StoredResponse) : Option UserResponse :=
  match parseDateTime s.timestamp with
  | some t =>
      some { user_id := s.user_id, course_id := s.course_id,
             lesson_id := s.lesson_id, question_index := s.question_index,
             answer_index := s.answer_index, is_correct := s.is_correct,
             response_time := s.response_time, timestamp := t }
  | none => none

end Storage

/-! ### The endpoint logic (src/main.py) over the abstract timeline

The gamification code uses a `datetime` only through `.date()` (its calendar
day), day-granularity comparison (`== today - timedelta(days=1)`,
`< today - timedelta(days=1)`, `< today`) and storing the instant itself.
Python dates under these operations are order-isomorphic to `ℤ` (via
`date.toordinal`), so an instant is a day index plus a time-of-day tick that
only ever matters for equality of instants. -/

/-- An abstract UTC instant: calendar day index plus time of day. -/
structure Instant where
  day : Int
  tick : Int
deriving DecidableEq

/-- Logic-level `models.User` (datetimes as `Instant`). -/
structure User where
  id : Int
  username : String
  full_name : String
  xp : Int
  coins : Int
  streak : Int
  level : Int
  last_active : Instant
  daily_goal : Int
  daily_xp : Int
  total_lessons_completed : Int
  achievements : List String
  created_at : Instant
deriving DecidableEq

/-- Logic-level `models.CourseProgress`. -/
structure CourseProgress where
  user_id : Int
  course_id : String
  lesson_id : Int
  completed : Bool
  score : Int
  completed_at : Option Instant
  time_spent : Int
deriving DecidableEq

/-- `models.calculate_level` (src/models.py lines 180-182):
`max(1, 1 + (xp // 100))`. -/
def calculate_level (xp : Int) : Int := max 1 (1 + Int.fdiv xp 100)

/-- `models.calculate_xp_for_next_level` (src/models.py lines 184-186). -/
def calculate_xp_for_next_level (_currentLevel : Int) : Int := 100

/-- `models.reset_daily_stats` (src/models.py lines 188-203): on a read,
if the last-active date is strictly before today, reset the streak to 1
unless the last-active date is exactly yesterday, and zero `daily_xp`. -/
def reset_daily_stats (u : User) (today : Int) : User :=
  if u.last_active.day < today then
    let u1 := if u.last_active.day = today - 1 then u else { u with streak := 1 }
    { u1 with daily_xp := 0 }
  else u

/-- The durable state: the `users.json` and `progress.json` mappings.
Every endpoint begins with `load_all_data()` (copy disk into the in-process
mappings) and the `save_*` helpers merge single records back into the files,
so an endpoint is a function of the disk state; the quiz-response mapping is
not touched by any operation modelled here. -/
structure Disk where
  users : List (Int × User)
  progress : List (String × CourseProgress)
deriving DecidableEq

/-- `f"{user_id}_{course_id}_{lesson_id}"` (src/main.py line 178). -/
def courseKey (uid : Int) (cid : String) (lid : Int) : String :=
  toString uid ++ "_" ++ cid ++ "_" ++ toString lid

/-- Lines 180-183: `was_completed` = the stored record's flag, false when
no record exists for the key. -/
def wasCompleted (progressDb : List (String × CourseProgress)) (key : String) : Bool :=
  match alookup progressDb key with
  | some prev => prev.completed
  | none => false

/-- Line 185: `progress.completed_at = datetime.utcnow() if progress.completed
else None`. -/
def stampProgress (p : CourseProgress) (now : Instant) : CourseProgress :=
  { p with completed_at := if p.completed then some now else none }

/-- Lines 206-212 of `update_progress`: the streak transition, from the date
of `last_active` and today's date. -/
def newStreak (streak lastDay today : Int) : Int :=
  if lastDay = today - 1 then streak + 1
  else if lastDay < today - 1 then 1
  else streak

/-- Lines 216-224: the threshold tags added this call, in fixed order, each
skipped when already owned; checked against the updated streak, counter and
level but the not-yet-extended achievements list. -/
def achievementsToAdd (streak total level : Int) (owned : List String) : List String :=
  (if streak = 7 ∧ "7_day_streak" ∉ owned then ["7_day_streak"] else []) ++
  (if streak = 30 ∧ "30_day_streak" ∉ owned then ["30_day_streak"] else []) ++
  (if total = 10 ∧ "10_lessons" ∉ owned then ["10_lessons"] else []) ++
  (if 5 ≤ level ∧ "level_5" ∉ owned then ["level_5"] else [])

/-- Lines 197-227: the mutation of the user on a fresh completion.
Returns the updated user, the XP gained and the newly added tags. -/
def applyCompletion (u : User) (score : Int) (now : Instant) :
    User × Int × List String :=
  let xpGained := 10 + Int.fdiv score 10
  let xp1 := u.xp + xpGained
  let level1 := calculate_level xp1
  let streak1 := newStreak u.streak u.last_active.day now.day
  let adds := achievementsToAdd streak1 (u.total_lessons_completed + 1) level1
      u.achievements
  ({ u with xp := xp1, daily_xp := u.daily_xp + xpGained,
            coins := u.coins + 5,
            total_lessons_completed := u.total_lessons_completed + 1,
            level := level1, streak := streak1, last_active := now,
            achievements := u.achievements ++ adds },
   xpGained, adds)

/-- The body of `POST /api/progress` (src/main.py lines 174-234).  The
progress record is stamped and stored unconditionally; the user is mutated
and persisted only on a fresh completion by an existing user.  `now` stands
for the `datetime.utcnow()` calls of the request. -/
structure UpdateResult where
  xp_gained : Int
  achievements : List String
deriving DecidableEq

def update_progress (disk : Disk) (now : Instant) (p0 : CourseProgress) :
    UpdateResult × Disk :=
  let key := courseKey p0.user_id p0.course_id p0.lesson_id
  let was := wasCompleted disk.progress key
  let p := stampProgress p0 now
  let disk1 : Disk := { disk with progress := aset disk.progress key p }
  if p.completed && !was then
    match alookup disk1.users p.user_id with
    | some u =>
        let r := applyCompletion u p.score now
        ({ xp_gained := r.2.1, achievements := r.2.2 },
         { disk1 with users := aset disk1.users p.user_id r.1 })
    | none => ({ xp_gained := 0, achievements := [] }, disk1)
  else ({ xp_gained := 0, achievements := [] }, disk1)

/-- The response of `GET /api/user/{user_id}` (src/main.py lines 124-138).
`last_active` is returned in ISO form; it is kept as an `Instant` here. -/
structure UserPayload where
  id : Int
  username : String
  full_name : String
  xp : Int
  coins : Int
  streak : Int
  level : Int
  daily_goal : Int
  daily_xp : Int
  total_lessons_completed : Int
  achievements : List String
  xp_for_next_level : Int
  last_active : Instant
deriving DecidableEq

def userPayload (u : User) : UserPayload :=
  { id := u.id, username := u.username, full_name := u.full_name, xp := u.xp,
    coins := u.coins, streak := u.streak, level := u.level,
    daily_goal := u.daily_goal, daily_xp := u.daily_xp,
    total_lessons_completed := u.total_lessons_completed,
    achievements := u.achievements,
    xp_for_next_level := calculate_xp_for_next_level u.level,
    last_active := u.last_active }

/-- `GET /api/user/{user_id}` (src/main.py lines 112-138): load, 404 when the
user is absent (`none`), otherwise reset daily stats, recompute the level,
touch `last_active`, and answer.  The handler calls no `save_*` function, so
the disk it leaves behind is the disk it loaded. -/
def get_user (disk : Disk) (now : Instant) (uid : Int) :
    Option (UserPayload × Disk) :=
  match alookup disk.users uid with
  | none => none
  | some u0 =>
      let u1 := reset_daily_stats u0 now.day
      let u2 := { u1 with level := calculate_level u1.xp, last_active := now }
      some (userPayload u2, disk)

/-- One entry of the fixed course catalog `PROGRAMMING_COURSES`
(src/models.py lines 152-177); the presentational fields (title,
description, icon, type) play no part in any computation and are omitted. -/
structure Course where
  id : String
  lessons_count : Int
deriving DecidableEq

def PROGRAMMING_COURSES : List Course :=
  [⟨"html", 3⟩, ⟨"python", 3⟩, ⟨"roblox", 3⟩]

/-- The per-course loop body of `get_user_stats` (src/main.py lines 260-269):
over all progress records, count this user's completed lessons of the course
and sum their scores and times. -/
def courseAccum (db : List (String × CourseProgress)) (uid : Int)
    (cid : String) : Int × Int × Int :=
  db.foldl
    (fun acc kv =>
      if kv.2.user_id = uid ∧ kv.2.course_id = cid ∧ kv.2.completed = true
      then (acc.1 + 1, acc.2.1 + kv.2.score, acc.2.2 + kv.2.time_spent)
      else acc)
    (0, 0, 0)

/-- One `course_stats` entry (src/main.py lines 271-277).  Python computes
`int((completed / lessons_count) * 100)` and `int(total_score / completed)`
with true division; both are modelled by the truncation of the exact
quotient (`Int.tdiv`), which the float evaluation matches for the divisors
(3 and small counts) and magnitudes this program produces. -/
structure CourseStat where
  completed : Int
  total : Int
  progress : Int
  average_score : Int
  total_time : Int
deriving DecidableEq

def courseStat (db : List (String × CourseProgress)) (uid : Int)
    (c : Course) : CourseStat :=
  let a := courseAccum db uid c.id
  { completed := a.1, total := c.lessons_count,
    progress :=
      if 0 < c.lessons_count then Int.tdiv (a.1 * 100) c.lessons_count else 0,
    average_score := if 0 < a.1 then Int.tdiv a.2.1 a.1 else 0,
    total_time := a.2.2 }

/-! ### IEEE binary64 evaluation of the daily-goal percentage

`get_user_stats` computes `int((user.daily_xp / user.daily_goal) * 100)`.
Unlike the per-course divisions above, this expression's two float
roundings are observable at small program-reachable inputs (daily_xp 23
with the default goal 20 yields 114, where exact arithmetic yields 115),
so it is modelled exactly: Python true division returns the binary64
double nearest to the exact quotient; the multiplication by the exactly
representable 100 rounds its exact product to the nearest double again
(round to nearest, ties to even, in both cases); `int` truncates toward
zero.  Every step is symmetric about zero, so the sign is carried outside
and the core works on positive fractions `a / b` held as integer pairs; a
float is held as a mantissa/exponent pair `(m, e)` of value
`m * 2 ^ (e - 52)` with `2 ^ 52 ≤ m ≤ 2 ^ 53`.  Overflow and subnormals
are unreachable at these magnitudes and are not modelled. -/

/-- Binary digit count of a natural number (0 for 0); the first argument
is fuel (any bound at least the number itself), so that the definition is
structural and evaluates in the kernel. -/
def bitlenAux : Nat → Nat → Nat
  | 0, _ => 0
  | _ + 1, 0 => 0
  | fuel + 1, n + 1 => bitlenAux fuel ((n + 1) / 2) + 1

def bitlen (n : Nat) : Nat := bitlenAux n n

/-- Round `a / b` (for `b > 0`) to the nearest integer, ties to even. -/
def roundHalfEvenQ (a b : Int) : Int :=
  let f := Int.fdiv a b
  let r := a - f * b
  if 2 * r < b then f
  else if b < 2 * r then f + 1
  else if f % 2 = 0 then f else f + 1

/-- The exponent `e` with `2 ^ e ≤ a / b < 2 ^ (e + 1)`, for `a, b > 0`:
the bit lengths locate it up to one, and one comparison settles it. -/
def ilog2F (a b : Int) : Int :=
  let e0 : Int := (bitlen a.toNat : Int) - (bitlen b.toNat : Int)
  if 0 ≤ e0 then
    if b * (2 ^ e0.toNat : Int) ≤ a then e0 else e0 - 1
  else
    if b ≤ a * (2 ^ (-e0).toNat : Int) then e0 else e0 - 1

/-- The binary64 float nearest to `a / b` (`a, b > 0`), as `(m, e)` of
value `m * 2 ^ (e - 52)`: the mantissa is `(a / b) / 2 ^ (e - 52)` rounded
to the nearest integer, ties to even. -/
def flF (a b : Int) : Int × Int :=
  let e := ilog2F a b
  let s := 52 - e
  let m :=
    if 0 ≤ s then roundHalfEvenQ (a * (2 ^ s.toNat : Int)) b
    else roundHalfEvenQ a (b * (2 ^ (-s).toNat : Int))
  (m, e)

/-- The exact product `(m * 2 ^ (e - 52)) * 100` as a positive fraction
(100 is exactly representable, so the product rounds from this exact
value). -/
def mulFrac100 (m e : Int) : Int × Int :=
  if 52 ≤ e then (m * 100 * (2 ^ (e - 52).toNat : Int), 1)
  else (m * 100, (2 ^ (52 - e).toNat : Int))

/-- Floor of the float `m * 2 ^ (e - 52)`, for `m ≥ 0`. -/
def b64Floor (m e : Int) : Int :=
  if 52 ≤ e then m * (2 ^ (e - 52).toNat : Int)
  else Int.fdiv m (2 ^ (52 - e).toNat : Int)

/-- `int((dx / dg) * 100)` exactly as Python evaluates it (for `dg > 0`):
round `dx / dg` to binary64, multiply by 100 and round to binary64 again,
truncate toward zero. -/
def pyPct (dx dg : Int) : Int :=
  if dx = 0 then 0
  else
    let a := if dx < 0 then -dx else dx
    let q1 := flF a dg
    let f2 := mulFrac100 q1.1 q1.2
    let q2 := flF f2.1 f2.2
    let r := b64Floor q2.1 q2.2
    if dx < 0 then -r else r

/-- The `user` block of the stats response (src/main.py lines 280-294),
including `daily_goal_progress = int((daily_xp / daily_goal) * 100)` when
`daily_goal > 0`, else 0 — the division and multiplication evaluated in
binary64 as the program does, the `int` as truncation (`pyPct`). -/
structure StatsUser where
  id : Int
  xp : Int
  coins : Int
  streak : Int
  level : Int
  daily_goal : Int
  daily_xp : Int
  total_lessons_completed : Int
  achievements : List String
  daily_goal_progress : Int
deriving DecidableEq

def statsUser (u : User) : StatsUser :=
  { id := u.id, xp := u.xp, coins := u.coins, streak := u.streak,
    level := u.level, daily_goal := u.daily_goal, daily_xp := u.daily_xp,
    total_lessons_completed := u.total_lessons_completed,
    achievements := u.achievements,
    daily_goal_progress :=
      if 0 < u.daily_goal then pyPct u.daily_xp u.daily_goal
      else 0 }

structure StatsPayload where
  user : StatsUser
  courses : List (String × CourseStat)
deriving DecidableEq

/-- `GET /api/stats/{user_id}` (src/main.py lines 246-296): load, 404 when
absent, reset daily stats and recompute the level in memory, aggregate per
catalog course.  As in `get_user`, nothing is persisted: the disk returned
is the disk loaded. -/
def get_user_stats (disk : Disk) (now : Instant) (uid : Int) :
    Option (StatsPayload × Disk) :=
  match alookup disk.users uid with
  | none => none
  | some u0 =>
      let u1 := reset_daily_stats u0 now.day
      let u2 := { u1 with level := calculate_level u1.xp }
      some ({ user := statsUser u2,
              courses := PROGRAMMING_COURSES.map
                (fun c => (c.id, courseStat disk.progress uid c)) },
            disk)

/-! ### Request-body validation of `POST /api/progress`

FastAPI parses the JSON body into the pydantic `CourseProgress` model
(src/models.py lines 32-39) before the handler runs.  The declaration
requires `user_id : int`, `course_id : str`, `lesson_id : int` and defaults
`completed = False`, `score = 0`, `time_spent = 0`; it declares NO range
constraint on any field.  A missing required field fails validation, which
is reported to the caller, so the handler (hence any mutation) never runs.
For fields that are present, pydantic v1 coerces compatible values to the
declared type: numeric strings become ints (`strToInt?`, modelling `int(v)`
on plain signed decimal text), numbers become strings, 0/1 become booleans.
Its remaining coercion table (whitespace or underscore digit groups, float
inputs, the textual boolean forms) is not modelled, and no theorem below
depends on how a present field of one of those shapes is treated; only the
first failing field is reported, where pydantic reports all.  The payload
shape is that of §6 of the spec (`completed_at` is not part of the external
payload and is overwritten by the handler in any case). -/

inductive JVal where
  | jnull : JVal
  | jbool : Bool → JVal
  | jint : Int → JVal
  | jstr : String → JVal
deriving DecidableEq

def digitsValAux : Nat → List Char → Option Nat
  | acc, [] => some acc
  | acc, c :: cs =>
      if isDigitC c then digitsValAux (acc * 10 + digitVal c) cs else none

/-- Python `int(s)` on a plain signed decimal string: optional sign, then
at least one digit. -/
def strToInt? (s : String) : Option Int :=
  match s.data with
  | [] => none
  | '-' :: cs =>
      if cs = [] then none
      else (digitsValAux 0 cs).map (fun n => -(n : Int))
  | '+' :: cs =>
      if cs = [] then none
      else (digitsValAux 0 cs).map (fun n => (n : Int))
  | cs => (digitsValAux 0 cs).map (fun n => (n : Int))

/-- A required `int` field: absent fails; an int is taken as is; a numeric
string is coerced as pydantic v1 does. -/
def reqInt (pl : List (String × JVal)) (k : String) : Except String Int :=
  match alookup pl k with
  | some (.jint n) => .ok n
  | some (.jstr s) =>
      match strToInt? s with
      | some n => .ok n
      | none => .error k
  | _ => .error k

/-- A required `str` field: absent fails; pydantic v1 also coerces a number
to its decimal text. -/
def reqStr (pl : List (String × JVal)) (k : String) : Except String String :=
  match alookup pl k with
  | some (.jstr s) => .ok s
  | some (.jint n) => .ok (toString n)
  | _ => .error k

/-- A defaulted `bool` field; pydantic v1 also accepts the ints 0 and 1. -/
def optBool (pl : List (String × JVal)) (k : String) (dflt : Bool) :
    Except String Bool :=
  match alookup pl k with
  | some (.jbool b) => .ok b
  | some (.jint 0) => .ok false
  | some (.jint 1) => .ok true
  | none => .ok dflt
  | _ => .error k

/-- A defaulted `int` field, with the same coercion as `reqInt`. -/
def optInt (pl : List (String × JVal)) (k : String) (dflt : Int) :
    Except String Int :=
  match alookup pl k with
  | some (.jint n) => .ok n
  | some (.jstr s) =>
      match strToInt? s with
      | some n => .ok n
      | none => .error k
  | none => .ok dflt
  | _ => .error k

def parseCourseProgress (pl : List (String × JVal)) :
    Except String CourseProgress := do
  let uid ← reqInt pl ("user_id")
  let cid ← reqStr pl ("course_id")
  let lid ← reqInt pl ("lesson_id")
  let completed ← optBool pl ("completed") false
  let score ← optInt pl ("score") 0
  let timeSpent ← optInt pl ("time_spent") 0
  .ok { user_id := uid, course_id := cid, lesson_id := lid,
        completed := completed, score := score, completed_at := none,
        time_spent := timeSpent }

/-- `POST /api/progress` seen from the caller: validation first; the handler
body runs, and can touch state, only on a validated payload. -/
def update_progress_endpoint (disk : Disk) (now : Instant)
    (pl : List (String × JVal)) : Except String (UpdateResult × Disk) :=
  match parseCourseProgress pl with
  | .error e => .error e
  | .ok p => .ok (update_progress disk now p)

/-! ### Spec-side characterizations and concrete sample inputs -/

/-- Characterization used to state the aggregation claim: this user's
completed records of the course, selected from the progress mapping. -/
def selectCompleted (db : List (String × CourseProgress)) (uid : Int)
    (cid : String) : List (String × CourseProgress) :=
  db.filter fun kv =>
    decide (kv.2.user_id = uid ∧ kv.2.course_id = cid ∧ kv.2.completed = true)

/-- A well-typed progress payload whose score is the given integer. -/
def mkPayload (n : Int) : List (String × JVal) :=
  [("user_id", .jint 1), ("course_id", .jstr "html"), ("lesson_id", .jint 1),
   ("completed", .jbool true), ("score", .jint n), ("time_spent", .jint 0)]

/-- A fresh user as `start` creates one (src/main.py lines 66-81). -/
def wUser : User :=
  { id := 1, username := "ann", full_name := "Ann", xp := 0, coins := 100,
    streak := 0, level := 1, last_active := ⟨100, 0⟩, daily_goal := 20,
    daily_xp := 0, total_lessons_completed := 0, achievements := [],
    created_at := ⟨100, 0⟩ }

def wProg : CourseProgress :=
  { user_id := 1, course_id := "html", lesson_id := 1, completed := true,
    score := 95, completed_at := none, time_spent := 60 }

def wDisk : Disk := { users := [(1, wUser)], progress := [] }

def wNow : Instant := ⟨100, 7⟩

/-- A user about to reach a 7-day streak: streak 6, last active yesterday. -/
def c3User : User :=
  { id := 1, username := "ann", full_name := "Ann", xp := 40, coins := 130,
    streak := 6, level := 1, last_active := ⟨99, 5⟩, daily_goal := 20,
    daily_xp := 0, total_lessons_completed := 6, achievements := [],
    created_at := ⟨93, 0⟩ }

def c3Disk : Disk := { users := [(1, c3User)], progress := [] }

/-- A payload carrying the out-of-range score 150. -/
def c6Payload : List (String × JVal) := mkPayload 150

/-- Payloads each missing one required field. -/
def c6aPayload : List (String × JVal) := [("course_id", JVal.jstr "html")]

def c6bPayload : List (String × JVal) := [("user_id", JVal.jint 1)]

def c6cPayload : List (String × JVal) :=
  [("user_id", JVal.jint 1), ("course_id", JVal.jstr "html")]

/-- A user read yesterday with 50 daily XP banked. -/
def c8User : User :=
  { id := 2, username := "bob", full_name := "Bob", xp := 310, coins := 10,
    streak := 3, level := 4, last_active := ⟨99, 3⟩, daily_goal := 20,
    daily_xp := 50, total_lessons_completed := 12,
    achievements := ["10_lessons"], created_at := ⟨80, 0⟩ }

def c8Disk : Disk := { users := [(2, c8User)], progress := [] }

def c9DT : PyDateTime := ⟨2026, 10, 12, 3, 4, 5, 0⟩

def c9DT2 : PyDateTime := ⟨2025, 1, 2, 23, 59, 58, 123456⟩

def c9User : Storage.User :=
  { id := 1, username := "ann", full_name := "Ann", xp := 19, coins := 105,
    streak := 7, level := 1, last_active := c9DT, daily_goal := 20,
    daily_xp := 19, total_lessons_completed := 1,
    achievements := ["7_day_streak"], created_at := c9DT2 }

def c9Prog : Storage.CourseProgress :=
  { user_id := 1, course_id := "html", lesson_id := 1, completed := true,
    score := 95, completed_at := some c9DT, time_spent := 60 }

def c9Resp : Storage.UserResponse :=
  { user_id := 1, course_id := "html", lesson_id := 2, question_index := 0,
    answer_index := 1, is_correct := true, response_time := 4,
    timestamp := c9DT2 }

/-- A user whose daily XP (201) exceeds the daily goal (200) by less than
one percent of the goal. -/
def c10User : User :=
  { id := 3, username := "cay", full_name := "Cay", xp := 0, coins := 0,
    streak := 1, level := 1, last_active := ⟨100, 0⟩, daily_goal := 200,
    daily_xp := 201, total_lessons_completed := 0, achievements := [],
    created_at := ⟨0, 0⟩ }

def c10Disk : Disk := { users := [(3, c10User)], progress := [] }

/-- A user comfortably past a small daily goal. -/
def c10bUser : User :=
  { id := 4, username := "dee", full_name := "Dee", xp := 0, coins := 0,
    streak := 1, level := 1, last_active := ⟨100, 0⟩, daily_goal := 20,
    daily_xp := 50, total_lessons_completed := 0, achievements := [],
    created_at := ⟨0, 0⟩ }

/-- A user at the program's default goal 20 with 23 daily XP: the smallest
input where the two float roundings drop the reported percentage below the
exact floor (114 versus 115). -/
def c10cUser : User :=
  { id := 5, username := "eli", full_name := "Eli", xp := 0, coins := 0,
    streak := 1, level := 1, last_active := ⟨100, 0⟩, daily_goal := 20,
    daily_xp := 23, total_lessons_completed := 0, achievements := [],
    created_at := ⟨0, 0⟩ }

def c10cDisk : Disk := { users := [(5, c10cUser)], progress := [] }

/-- A user with a zero daily goal. -/
def c10zUser : User :=
  { id := 6, username := "fay", full_name := "Fay", xp := 0, coins := 0,
    streak := 1, level := 1, last_active := ⟨100, 0⟩, daily_goal := 0,
    daily_xp := 9, total_lessons_completed := 0, achievements := [],
    created_at := ⟨0, 0⟩ }

/-- One completed lesson of the 3-lesson html course, score 85. -/
def c5Prog : CourseProgress :=
  { user_id := 1, course_id := "html", lesson_id := 1, completed := true,
    score := 85, completed_at := some ⟨100, 0⟩, time_spent := 60 }

def c5Db : List (String × CourseProgress) := [("1_html_1", c5Prog)]

/-! ## Proofs -/

/-! ### Library facts about the embedded primitives -/

theorem alookup_aset_self {K V : Type} [DecidableEq K]
    (l : List (K × V)) (k : K) (v : V) : alookup (aset l k v) k = some v := by
  induction l with
  | nil => simp [aset, alookup]
  | cons hd tl ih =>
    by_cases h : hd.1 = k
    · simp [aset, alookup, h]
    · simp [aset, alookup, h, ih]

theorem digit_facts : ∀ d, d < 10 →
    isDigitC (digitChar d) = true ∧ digitVal (digitChar d) = d := by decide

theorem readDigits_pad : ∀ (n acc v : Nat), v < 10 ^ n → ∀ rest : List Char,
    readDigits n acc (padDigits n v ++ rest) = some (acc * 10 ^ n + v, rest) := by
  intro n
  induction n with
  | zero =>
    intro acc v hv rest
    interval_cases v
    simp [readDigits, padDigits]
  | succ n ih =>
    intro acc v hv rest
    have hq : v / 10 ^ n < 10 := by
      have h10 : v < 10 ^ n * 10 := by
        calc v < 10 ^ (n + 1) := hv
        _ = 10 ^ n * 10 := pow_succ 10 n
      exact Nat.div_lt_of_lt_mul h10
    have hr : v % 10 ^ n < 10 ^ n := Nat.mod_lt _ (Nat.pos_pow_of_pos n (by omega))
    have hfacts := digit_facts _ hq
    simp only [padDigits, List.cons_append, readDigits, hfacts.1, if_true, hfacts.2,
      List.append_eq]
    rw [ih _ _ hr rest]
    congr 2
    have hdm : 10 ^ n * (v / 10 ^ n) + v % 10 ^ n = v := Nat.div_add_mod v (10 ^ n)
    calc (acc * 10 + v / 10 ^ n) * 10 ^ n + v % 10 ^ n
        = acc * (10 ^ n * 10) + (10 ^ n * (v / 10 ^ n) + v % 10 ^ n) := by ring
      _ = acc * 10 ^ (n + 1) + v := by rw [hdm, ← pow_succ]

theorem parseDateTime_fmtDateTime (t : PyDateTime) (h : ValidDT t) :
    parseDateTime (fmtDateTime t) = some t := by
  obtain ⟨y, mo, d, hh, mi, ss, us⟩ := t
  obtain ⟨h1, h2, h3, h4, h5, h6, h7⟩ := h
  have e1 : ∀ rest, readDigits 4 0 (padDigits 4 y ++ rest) = some (y, rest) := by
    intro rest; simpa using readDigits_pad 4 0 y (by simpa using h1) rest
  have e2 : ∀ rest, readDigits 2 0 (padDigits 2 mo ++ rest) = some (mo, rest) := by
    intro rest; simpa using readDigits_pad 2 0 mo (by simpa using h2) rest
  have e3 : ∀ rest, readDigits 2 0 (padDigits 2 d ++ rest) = some (d, rest) := by
    intro rest; simpa using readDigits_pad 2 0 d (by simpa using h3) rest
  have e4 : ∀ rest, readDigits 2 0 (padDigits 2 hh ++ rest) = some (hh, rest) := by
    intro rest; simpa using readDigits_pad 2 0 hh (by simpa using h4) rest
  have e5 : ∀ rest, readDigits 2 0 (padDigits 2 mi ++ rest) = some (mi, rest) := by
    intro rest; simpa using readDigits_pad 2 0 mi (by simpa using h5) rest
  have e6 : ∀ rest, readDigits 2 0 (padDigits 2 ss ++ rest) = some (ss, rest) := by
    intro rest; simpa using readDigits_pad 2 0 ss (by simpa using h6) rest
  have e6n : readDigits 2 0 (padDigits 2 ss) = some (ss, []) := by
    simpa using readDigits_pad 2 0 ss (by simpa using h6) []
  have e7 : readDigits 6 0 (padDigits 6 us) = some (us, []) := by
    simpa using readDigits_pad 6 0 us (by simpa using h7) []
  by_cases hus : us = 0
  · subst hus
    simp [fmtDateTime, parseDateTime, e1, e2, e3, e4, e5, e6, e6n]
  · simp [fmtDateTime, parseDateTime, e1, e2, e3, e4, e5, e6, e6n, e7, hus]

/-! ### Structure of `update_progress` -/

/-- Whatever else happens, `update_progress` stores the stamped incoming
record under its key (lines 185-187 run unconditionally). -/
theorem update_progress_stores (disk : Disk) (now : Instant)
    (p : CourseProgress) :
    (update_progress disk now p).2.progress =
      aset disk.progress (courseKey p.user_id p.course_id p.lesson_id)
        (stampProgress p now) := by
  simp only [update_progress]
  split
  · cases h : alookup disk.users (stampProgress p now).user_id <;> simp [h]
  · rfl

/-- On a fresh completion by an existing user, `update_progress` applies
`applyCompletion` to that user and persists both records. -/
theorem update_progress_fresh (disk : Disk) (now : Instant)
    (p : CourseProgress) (u : User)
    (hc : p.completed = true)
    (hw : wasCompleted disk.progress
      (courseKey p.user_id p.course_id p.lesson_id) = false)
    (hu : alookup disk.users p.user_id = some u) :
    update_progress disk now p =
      ({ xp_gained := (applyCompletion u p.score now).2.1,
         achievements := (applyCompletion u p.score now).2.2 },
       { users := aset disk.users p.user_id (applyCompletion u p.score now).1,
         progress := aset disk.progress
           (courseKey p.user_id p.course_id p.lesson_id)
           (stampProgress p now) }) := by
  simp [update_progress, hw, hc, stampProgress, hu]

/-- When the stored record is already completed, the user is untouched and
the call reports zero XP and no achievements. -/
theorem update_progress_stale (disk : Disk) (now : Instant)
    (p : CourseProgress)
    (hw : wasCompleted disk.progress
      (courseKey p.user_id p.course_id p.lesson_id) = true) :
    update_progress disk now p =
      ({ xp_gained := 0, achievements := [] },
       { users := disk.users,
         progress := aset disk.progress
           (courseKey p.user_id p.course_id p.lesson_id)
           (stampProgress p now) }) := by
  simp [update_progress, hw, stampProgress]

/-! ### The aggregation fold -/

theorem courseAccum_spec (uid : Int) (cid : String)
    (db : List (String × CourseProgress)) :
    courseAccum db uid cid =
      (((selectCompleted db uid cid).length : Int),
       ((selectCompleted db uid cid).map fun kv => kv.2.score).sum,
       ((selectCompleted db uid cid).map fun kv => kv.2.time_spent).sum) := by
  have aux : ∀ (l : List (String × CourseProgress)) (a b c : Int),
      l.foldl
        (fun acc kv =>
          if kv.2.user_id = uid ∧ kv.2.course_id = cid ∧ kv.2.completed = true
          then (acc.1 + 1, acc.2.1 + kv.2.score, acc.2.2 + kv.2.time_spent)
          else acc)
        (a, b, c) =
      (a + ((selectCompleted l uid cid).length : Int),
       b + ((selectCompleted l uid cid).map fun kv => kv.2.score).sum,
       c + ((selectCompleted l uid cid).map fun kv => kv.2.time_spent).sum) := by
    intro l
    induction l with
    | nil => intro a b c; simp [selectCompleted]
    | cons hd tl ih =>
      intro a b c
      by_cases h : hd.2.user_id = uid ∧ hd.2.course_id = cid ∧
          hd.2.completed = true
      · have hsel : selectCompleted (hd :: tl) uid cid =
            hd :: selectCompleted tl uid cid := by
          simp [selectCompleted, List.filter_cons, h]
        simp only [List.foldl_cons, if_pos h, ih, hsel, List.length_cons,
          List.map_cons, List.sum_cons, Prod.mk.injEq]
        refine ⟨?_, ?_, ?_⟩ <;> push_cast <;> ring
      · have hsel : selectCompleted (hd :: tl) uid cid =
            selectCompleted tl uid cid := by
          simp [selectCompleted, List.filter_cons, h]
        simp only [List.foldl_cons, if_neg h, ih, hsel]
  simpa using aux db 0 0 0

/-! ### The claims -/

/-- C4: for every integer `xp >= 0`, the level computed by `calculate_level`
equals `1 + floor(xp / 100)`, and the computed level is always at least 1. -/
theorem C4_calculate_level (xp : Int) :
    (0 ≤ xp → calculate_level xp = 1 + Int.fdiv xp 100) ∧
    1 ≤ calculate_level xp := by
  constructor
  · intro h
    have he : Int.fdiv xp 100 = xp / 100 :=
      Int.fdiv_eq_ediv xp (by norm_num)
    simp only [calculate_level, he]
    omega
  · exact le_max_left 1 _

theorem C4_witness :
    0 ≤ (250 : Int) ∧ calculate_level 250 = 1 + Int.fdiv 250 100 :=
  ⟨by decide, (C4_calculate_level 250).1 (by decide)⟩

/-- C1: a progress submission with `completed = true`, whose identity has no
existing record or an existing record with `completed = false`, and whose
user exists (with the data model's non-negative score and XP), gains
`10 + floor(score / 10)` XP; the user's `xp` and `daily_xp` each grow by
exactly that, coins by 5, `total_lessons_completed` by 1, and the level is
recomputed as `1 + floor(new xp / 100)`. -/
theorem C1_fresh_completion_awards (disk : Disk) (now : Instant)
    (p : CourseProgress) (u : User)
    (hc : p.completed = true)
    (hw : wasCompleted disk.progress
      (courseKey p.user_id p.course_id p.lesson_id) = false)
    (hu : alookup disk.users p.user_id = some u)
    (hs : 0 ≤ p.score) (hxp : 0 ≤ u.xp) :
    (update_progress disk now p).1.xp_gained = 10 + Int.fdiv p.score 10 ∧
    ∃ u', alookup (update_progress disk now p).2.users p.user_id = some u' ∧
      u'.xp = u.xp + (10 + Int.fdiv p.score 10) ∧
      u'.daily_xp = u.daily_xp + (10 + Int.fdiv p.score 10) ∧
      u'.coins = u.coins + 5 ∧
      u'.total_lessons_completed = u.total_lessons_completed + 1 ∧
      u'.level = 1 + Int.fdiv u'.xp 100 := by
  rw [update_progress_fresh disk now p u hc hw hu]
  have hg : 0 ≤ Int.fdiv p.score 10 := Int.fdiv_nonneg hs (by norm_num)
  refine ⟨rfl, (applyCompletion u p.score now).1, alookup_aset_self .., rfl,
    rfl, rfl, rfl, ?_⟩
  show calculate_level (u.xp + (10 + Int.fdiv p.score 10)) =
    1 + Int.fdiv (u.xp + (10 + Int.fdiv p.score 10)) 100
  rw [calculate_level, Int.fdiv_eq_ediv _ (by norm_num : (0:Int) ≤ 100)]
  omega

theorem C1_witness :
    (wProg.completed = true ∧
      wasCompleted wDisk.progress
        (courseKey wProg.user_id wProg.course_id wProg.lesson_id) = false ∧
      alookup wDisk.users wProg.user_id = some wUser ∧
      0 ≤ wProg.score ∧ 0 ≤ wUser.xp) ∧
    ((update_progress wDisk wNow wProg).1.xp_gained =
        10 + Int.fdiv wProg.score 10 ∧
      ∃ u', alookup (update_progress wDisk wNow wProg).2.users
          wProg.user_id = some u' ∧
        u'.xp = wUser.xp + (10 + Int.fdiv wProg.score 10) ∧
        u'.daily_xp = wUser.daily_xp + (10 + Int.fdiv wProg.score 10) ∧
        u'.coins = wUser.coins + 5 ∧
        u'.total_lessons_completed = wUser.total_lessons_completed + 1 ∧
        u'.level = 1 + Int.fdiv u'.xp 100) ∧
    (update_progress wDisk wNow wProg).1.xp_gained = 19 ∧
    (alookup (update_progress wDisk wNow wProg).2.users 1).map
        (fun x => (x.xp, x.coins, x.total_lessons_completed, x.level)) =
      some (19, 105, 1, 1) :=
  ⟨⟨rfl, by decide, by decide, by decide, by decide⟩,
   C1_fresh_completion_awards wDisk wNow wProg wUser rfl (by decide)
     (by decide) (by decide) (by decide),
   by decide, by decide⟩

/-- C2: after a completed progress record has been applied once, submitting
the identical record again returns `xp_gained = 0` and no new achievements,
and leaves the whole user mapping — hence the user's xp, coins, streak,
lesson counter and achievements — unchanged. -/
theorem C2_resubmission_is_noop (disk : Disk) (now1 now2 : Instant)
    (p : CourseProgress) (hc : p.completed = true) :
    (update_progress (update_progress disk now1 p).2 now2 p).1.xp_gained = 0 ∧
    (update_progress (update_progress disk now1 p).2 now2 p).1.achievements
      = [] ∧
    (update_progress (update_progress disk now1 p).2 now2 p).2.users =
      (update_progress disk now1 p).2.users := by
  have hw1 : wasCompleted (update_progress disk now1 p).2.progress
      (courseKey p.user_id p.course_id p.lesson_id) = true := by
    rw [wasCompleted, update_progress_stores, alookup_aset_self]
    simp [stampProgress, hc]
  rw [update_progress_stale _ now2 p hw1]
  exact ⟨rfl, rfl, rfl⟩

theorem C2_witness :
    wProg.completed = true ∧
    (update_progress (update_progress wDisk wNow wProg).2 ⟨101, 4⟩
        wProg).1.xp_gained = 0 ∧
    (update_progress (update_progress wDisk wNow wProg).2 ⟨101, 4⟩
        wProg).1.achievements = [] ∧
    (update_progress (update_progress wDisk wNow wProg).2 ⟨101, 4⟩
        wProg).2.users = (update_progress wDisk wNow wProg).2.users :=
  ⟨rfl, C2_resubmission_is_noop wDisk wNow ⟨101, 4⟩ wProg rfl⟩

/-- C3: on a fresh completion by an existing user, the streak increments
when the last-active date is yesterday, resets to 1 when it is older,
and stays unchanged when it is today; `last_active` is then set to `now`.
A user at streak 6 who was last active yesterday reaches streak 7 and gains
exactly the tag `"7_day_streak"`, which is never added a second time. -/
theorem C3_streak_transition (disk : Disk) (now : Instant)
    (p : CourseProgress) (u : User)
    (hc : p.completed = true)
    (hw : wasCompleted disk.progress
      (courseKey p.user_id p.course_id p.lesson_id) = false)
    (hu : alookup disk.users p.user_id = some u) :
    ∃ u', alookup (update_progress disk now p).2.users p.user_id = some u' ∧
      (u.last_active.day = now.day - 1 → u'.streak = u.streak + 1) ∧
      (u.last_active.day < now.day - 1 → u'.streak = 1) ∧
      (u.last_active.day = now.day → u'.streak = u.streak) ∧
      u'.last_active = now ∧
      ("7_day_streak" ∈ u.achievements →
        "7_day_streak" ∉ (update_progress disk now p).1.achievements) ∧
      (u.streak = 6 → u.last_active.day = now.day - 1 →
        "7_day_streak" ∉ u.achievements →
        u.total_lessons_completed + 1 ≠ 10 →
        calculate_level (u.xp + (10 + Int.fdiv p.score 10)) < 5 →
        u'.streak = 7 ∧
        (update_progress disk now p).1.achievements = ["7_day_streak"]) := by
  rw [update_progress_fresh disk now p u hc hw hu]
  refine ⟨(applyCompletion u p.score now).1, alookup_aset_self .., ?_, ?_,
    ?_, rfl, ?_, ?_⟩
  · intro h
    show newStreak u.streak u.last_active.day now.day = u.streak + 1
    rw [newStreak, if_pos h]
  · intro h
    show newStreak u.streak u.last_active.day now.day = 1
    rw [newStreak, if_neg (by omega), if_pos h]
  · intro h
    show newStreak u.streak u.last_active.day now.day = u.streak
    rw [newStreak, if_neg (by omega), if_neg (by omega)]
  · intro hmem
    show "7_day_streak" ∉ achievementsToAdd _ _ _ u.achievements
    rw [achievementsToAdd, if_neg (by simp [hmem])]
    intro hin
    simp only [List.nil_append, List.mem_append] at hin
    rcases hin with (hin | hin) | hin <;> revert hin <;> split <;> simp
  · intro h6 hyest hnot hten hlvl
    have hstreak : newStreak u.streak u.last_active.day now.day = 7 := by
      rw [newStreak, if_pos hyest]
      omega
    refine ⟨hstreak, ?_⟩
    show achievementsToAdd (newStreak u.streak u.last_active.day now.day)
        (u.total_lessons_completed + 1)
        (calculate_level (u.xp + (10 + Int.fdiv p.score 10)))
        u.achievements = ["7_day_streak"]
    rw [achievementsToAdd, hstreak]
    rw [if_pos ⟨rfl, hnot⟩, if_neg (by simp), if_neg (by simp [hten]),
      if_neg (fun hcon => absurd hcon.1 (by omega))]
    rfl

theorem C3_witness :
    (wProg.completed = true ∧
      wasCompleted c3Disk.progress
        (courseKey wProg.user_id wProg.course_id wProg.lesson_id) = false ∧
      alookup c3Disk.users wProg.user_id = some c3User) ∧
    (∃ u', alookup (update_progress c3Disk wNow wProg).2.users
        wProg.user_id = some u' ∧
      (c3User.last_active.day = wNow.day - 1 → u'.streak = c3User.streak + 1) ∧
      (c3User.last_active.day < wNow.day - 1 → u'.streak = 1) ∧
      (c3User.last_active.day = wNow.day → u'.streak = c3User.streak) ∧
      u'.last_active = wNow ∧
      ("7_day_streak" ∈ c3User.achievements →
        "7_day_streak" ∉ (update_progress c3Disk wNow wProg).1.achievements) ∧
      (c3User.streak = 6 → c3User.last_active.day = wNow.day - 1 →
        "7_day_streak" ∉ c3User.achievements →
        c3User.total_lessons_completed + 1 ≠ 10 →
        calculate_level (c3User.xp + (10 + Int.fdiv wProg.score 10)) < 5 →
        u'.streak = 7 ∧
        (update_progress c3Disk wNow wProg).1.achievements =
          ["7_day_streak"])) ∧
    (alookup (update_progress c3Disk wNow wProg).2.users 1).map
        (fun x => x.streak) = some 7 ∧
    (update_progress c3Disk wNow wProg).1.achievements = ["7_day_streak"] :=
  ⟨⟨rfl, by decide, by decide⟩,
   C3_streak_transition c3Disk wNow wProg c3User rfl (by decide) (by decide),
   by decide, by decide⟩

/-- C5: for a user and a course of the fixed catalog, the stats aggregation
counts completed lessons and sums score and time over exactly this user's
completed lessons of this course, and reports
`progress = floor(100 * completed / lessons_count)` (0 when the course has
no lessons) and `average_score = floor(total_score / completed)` (0 when
nothing is completed).  Scores are the data model's 0-100 integers, hence
non-negative. -/
theorem C5_stats_aggregation (db : List (String × CourseProgress))
    (uid : Int) (c : Course) (_hc : c ∈ PROGRAMMING_COURSES)
    (hs : ∀ kv ∈ db, 0 ≤ kv.2.score) :
    (courseStat db uid c).completed =
      ((selectCompleted db uid c.id).length : Int) ∧
    (courseStat db uid c).total = c.lessons_count ∧
    (courseStat db uid c).total_time =
      ((selectCompleted db uid c.id).map fun kv => kv.2.time_spent).sum ∧
    (0 < c.lessons_count → (courseStat db uid c).progress =
      Int.fdiv (100 * ((selectCompleted db uid c.id).length : Int))
        c.lessons_count) ∧
    (c.lessons_count = 0 → (courseStat db uid c).progress = 0) ∧
    ((selectCompleted db uid c.id).length ≠ 0 →
      (courseStat db uid c).average_score =
        Int.fdiv (((selectCompleted db uid c.id).map
            fun kv => kv.2.score).sum)
          ((selectCompleted db uid c.id).length : Int)) ∧
    ((selectCompleted db uid c.id).length = 0 →
      (courseStat db uid c).average_score = 0) := by
  have hsum : 0 ≤ ((selectCompleted db uid c.id).map
      fun kv => kv.2.score).sum := by
    apply List.sum_nonneg
    intro x hx
    simp only [List.mem_map] at hx
    obtain ⟨kv, hkv, rfl⟩ := hx
    exact hs kv (List.mem_of_mem_filter hkv)
  simp only [courseStat, courseAccum_spec]
  refine ⟨trivial, trivial, trivial, ?_, ?_, ?_, ?_⟩
  · intro hpos
    rw [if_pos hpos]
    rw [Int.tdiv_eq_ediv (by positivity) (le_of_lt hpos),
      Int.fdiv_eq_ediv _ (le_of_lt hpos), mul_comm]
  · intro hz
    rw [if_neg (by omega)]
  · intro hne
    have hpos : (0 : Int) < ((selectCompleted db uid c.id).length : Int) := by
      exact_mod_cast Nat.pos_of_ne_zero hne
    rw [if_pos hpos, Int.tdiv_eq_ediv hsum (le_of_lt hpos),
      Int.fdiv_eq_ediv _ (le_of_lt hpos)]
  · intro hz
    rw [if_neg (by simp [hz])]

theorem C5_witness :
    ((⟨"html", 3⟩ : Course) ∈ PROGRAMMING_COURSES ∧
      (∀ kv ∈ c5Db, 0 ≤ kv.2.score)) ∧
    ((courseStat c5Db 1 ⟨"html", 3⟩).completed =
        ((selectCompleted c5Db 1 "html").length : Int) ∧
      (courseStat c5Db 1 ⟨"html", 3⟩).total = 3 ∧
      (courseStat c5Db 1 ⟨"html", 3⟩).total_time =
        ((selectCompleted c5Db 1 "html").map fun kv => kv.2.time_spent).sum ∧
      (0 < (3 : Int) → (courseStat c5Db 1 ⟨"html", 3⟩).progress =
        Int.fdiv (100 * ((selectCompleted c5Db 1 "html").length : Int)) 3) ∧
      ((3 : Int) = 0 → (courseStat c5Db 1 ⟨"html", 3⟩).progress = 0) ∧
      ((selectCompleted c5Db 1 "html").length ≠ 0 →
        (courseStat c5Db 1 ⟨"html", 3⟩).average_score =
          Int.fdiv (((selectCompleted c5Db 1 "html").map
              fun kv => kv.2.score).sum)
            ((selectCompleted c5Db 1 "html").length : Int)) ∧
      ((selectCompleted c5Db 1 "html").length = 0 →
        (courseStat c5Db 1 ⟨"html", 3⟩).average_score = 0)) ∧
    courseStat c5Db 1 ⟨"html", 3⟩ =
      { completed := 1, total := 3, progress := 33, average_score := 85,
        total_time := 60 } :=
  ⟨⟨by decide, by decide⟩,
   C5_stats_aggregation c5Db 1 ⟨"html", 3⟩ (by decide) (by decide),
   by decide⟩

/-- C10 (amended): in the stats read, `daily_goal_progress` for a user
with `daily_goal > 0` is `int((daily_xp / daily_goal) * 100)` evaluated in
IEEE binary64 floating point, which tracks `floor(100 * daily_xp /
daily_goal)` only up to rounding: at the program's default goal 20 and
`daily_xp = 23` it reports 114 where exact arithmetic gives 115.  It is not
capped at 100 (goal 20 with `daily_xp = 50` reports 250), though
`daily_xp` exceeding `daily_goal` need not put it above 100 (goal 200 with
`daily_xp = 201` reports exactly 100); when `daily_goal = 0` it is
reported as 0. -/
theorem C10_daily_goal_progress (u : User) :
    (u.daily_goal = 0 → (statsUser u).daily_goal_progress = 0) ∧
    (0 < u.daily_goal →
      (statsUser u).daily_goal_progress = pyPct u.daily_xp u.daily_goal) ∧
    (statsUser c10cUser).daily_goal_progress = 114 ∧
    (statsUser c10bUser).daily_goal_progress = 250 ∧
    (statsUser c10User).daily_goal_progress = 100 := by
  refine ⟨?_, ?_, by decide, by decide, by decide⟩
  · intro hz
    simp [statsUser, hz]
  · intro hg
    simp [statsUser, hg]

/-- C10, the claim as stated is false twice over: through the full stats
read, the reported value at the program-reachable input `daily_xp = 23`,
`daily_goal = 20` is 114 and not `floor(2300 / 20) = 115` (the two binary64
roundings land just below 115, which `int` truncates away); and a user
whose `daily_xp = 201` exceeds `daily_goal = 200` is reported exactly 100,
not a percentage exceeding 100. -/
theorem C10_counterexample :
    (get_user_stats c10cDisk ⟨100, 0⟩ 5).map
        (fun x => x.1.user.daily_goal_progress) = some 114 ∧
    Int.fdiv (100 * 23) 20 = 115 ∧
    (alookup c10cDisk.users 5).map (fun x => (x.daily_xp, x.daily_goal)) =
      some (23, 20) ∧
    (get_user_stats c10Disk ⟨100, 0⟩ 3).map
        (fun x => x.1.user.daily_goal_progress) = some 100 ∧
    (alookup c10Disk.users 3).map (fun x => (x.daily_xp, x.daily_goal)) =
      some (201, 200) ∧
    ¬ (100 : Int) < 100 := by decide

theorem C10_witness :
    c10zUser.daily_goal = 0 ∧
    (statsUser c10zUser).daily_goal_progress = 0 ∧
    0 < c10bUser.daily_goal ∧
    (statsUser c10bUser).daily_goal_progress =
      pyPct c10bUser.daily_xp c10bUser.daily_goal :=
  ⟨by decide, (C10_daily_goal_progress c10zUser).1 (by decide),
   by decide, (C10_daily_goal_progress c10bUser).2.1 (by decide)⟩

/-- C6 (amended): only shape validation guards `POST /api/progress` — a
payload missing any of the required fields `user_id`, `course_id` or
`lesson_id` is rejected with a validation error before the handler, and
hence before any mutation, can run; no range is validated: a well-typed
payload with ANY integer score, including one outside 0-100, parses
successfully and the update proceeds with it. -/
theorem C6_shape_validation_only (disk : Disk) (now : Instant)
    (pl : List (String × JVal)) (n : Int) :
    (alookup pl ("user_id") = none →
      ∃ e, update_progress_endpoint disk now pl = Except.error e) ∧
    (alookup pl ("course_id") = none →
      ∃ e, update_progress_endpoint disk now pl = Except.error e) ∧
    (alookup pl ("lesson_id") = none →
      ∃ e, update_progress_endpoint disk now pl = Except.error e) ∧
    (∃ p, parseCourseProgress (mkPayload n) = Except.ok p ∧
      p.score = n ∧ p.completed = true) := by
  refine ⟨?_, ?_, ?_, ?_⟩
  · intro h
    refine ⟨"user_id", ?_⟩
    have h1 : reqInt pl ("user_id") = Except.error ("user_id") := by
      simp [reqInt, h]
    simp only [update_progress_endpoint, parseCourseProgress, h1]
    rfl
  · intro h
    have h2 : reqStr pl ("course_id") = Except.error ("course_id") := by
      simp [reqStr, h]
    cases h1 : reqInt pl ("user_id") with
    | error e =>
        refine ⟨e, ?_⟩
        simp only [update_progress_endpoint, parseCourseProgress, h1]
        rfl
    | ok v =>
        refine ⟨"course_id", ?_⟩
        simp only [update_progress_endpoint, parseCourseProgress, h1, h2]
        rfl
  · intro h
    have h3 : reqInt pl ("lesson_id") = Except.error ("lesson_id") := by
      simp [reqInt, h]
    cases h1 : reqInt pl ("user_id") with
    | error e =>
        refine ⟨e, ?_⟩
        simp only [update_progress_endpoint, parseCourseProgress, h1]
        rfl
    | ok v =>
        cases h2 : reqStr pl ("course_id") with
        | error e =>
            refine ⟨e, ?_⟩
            simp only [update_progress_endpoint, parseCourseProgress, h1,
              h2]
            rfl
        | ok w =>
            refine ⟨"lesson_id", ?_⟩
            simp only [update_progress_endpoint, parseCourseProgress, h1,
              h2, h3]
            rfl
  · exact ⟨⟨1, "html", 1, true, n, none, 0⟩, rfl, rfl, rfl⟩

/-- C6, the claim as stated is false: the payload with the out-of-range
score 150 is not rejected; the handler runs, awards `10 + 150 // 10 = 25`
XP and mutates the stored user. -/
theorem C6_counterexample :
    (update_progress_endpoint wDisk wNow c6Payload).isOk = true ∧
    (update_progress_endpoint wDisk wNow c6Payload).toOption.map
        (fun r => (r.1.xp_gained, (alookup r.2.users 1).map fun x => x.xp)) =
      some (25, some 25) := by decide

theorem C6_witness :
    (alookup c6aPayload ("user_id") = none ∧
      ∃ e, update_progress_endpoint wDisk wNow c6aPayload =
        Except.error e) ∧
    (alookup c6bPayload ("course_id") = none ∧
      ∃ e, update_progress_endpoint wDisk wNow c6bPayload =
        Except.error e) ∧
    (alookup c6cPayload ("lesson_id") = none ∧
      ∃ e, update_progress_endpoint wDisk wNow c6cPayload =
        Except.error e) ∧
    (∃ p, parseCourseProgress (mkPayload 150) = Except.ok p ∧
      p.score = 150 ∧ p.completed = true) :=
  ⟨⟨by decide,
    (C6_shape_validation_only wDisk wNow c6aPayload 150).1 (by decide)⟩,
   ⟨by decide,
    (C6_shape_validation_only wDisk wNow c6bPayload 150).2.1 (by decide)⟩,
   ⟨by decide,
    (C6_shape_validation_only wDisk wNow c6cPayload 150).2.2.1 (by decide)⟩,
   (C6_shape_validation_only wDisk wNow c6cPayload 150).2.2.2⟩

/-- C7 (amended): `completed_at` is not preserved across submissions — every
submission with `completed = true` stamps the stored record with the
submission's own current time, and a submission with `completed = false`
clears it. -/
theorem C7_stamp_every_submission (disk : Disk) (now : Instant)
    (p : CourseProgress) :
    (alookup (update_progress disk now p).2.progress
        (courseKey p.user_id p.course_id p.lesson_id)).map
      (fun q => q.completed_at) =
      some (if p.completed then some now else none) := by
  rw [update_progress_stores, alookup_aset_self]
  rfl

/-- C7, the claim as stated is false: resubmitting the same completed record
at a later time overwrites the stored `completed_at` with the later time
instead of leaving the first stamp unchanged. -/
theorem C7_counterexample :
    (alookup (update_progress wDisk ⟨100, 1⟩ wProg).2.progress
        (courseKey 1 ("html") 1)).map (fun q => q.completed_at) =
      some (some ⟨100, 1⟩) ∧
    (alookup (update_progress (update_progress wDisk ⟨100, 1⟩ wProg).2
          ⟨100, 2⟩ wProg).2.progress
        (courseKey 1 ("html") 1)).map (fun q => q.completed_at) =
      some (some ⟨100, 2⟩) ∧
    (⟨100, 2⟩ : Instant) ≠ ⟨100, 1⟩ := by decide

/-- C8 (amended): every modelled operation starts from the reloaded disk
state, and the progress update persists the records it touches; but the
user read and the stats read mutate the user only in memory — the disk they
leave behind is exactly the disk they loaded, so the daily-stats reset, the
level recomputation and the `last_active` touch of a read are never
persisted. -/
theorem C8_reload_and_persist (disk : Disk) (now : Instant) (uid : Int)
    (p : CourseProgress) :
    ((get_user disk now uid).map (fun x => x.2)).getD disk = disk ∧
    ((get_user_stats disk now uid).map (fun x => x.2)).getD disk = disk ∧
    alookup (update_progress disk now p).2.progress
        (courseKey p.user_id p.course_id p.lesson_id) =
      some (stampProgress p now) := by
  refine ⟨?_, ?_, ?_⟩
  · cases h : alookup disk.users uid <;> simp [get_user, h]
  · cases h : alookup disk.users uid <;> simp [get_user_stats, h]
  · rw [update_progress_stores]
    exact alookup_aset_self ..

/-- C8, the claim as stated is false: the user read mutates the user
(here: resets `daily_xp` from 50 to 0 for a new day) and returns the
mutated view, yet persists nothing — the disk still holds `daily_xp = 50`
after the call. -/
theorem C8_counterexample :
    (get_user c8Disk ⟨100, 0⟩ 2).map (fun x => (x.1.daily_xp, x.2.users)) =
      some (0, c8Disk.users) ∧
    (alookup c8Disk.users 2).map (fun x => x.daily_xp) = some 50 := by decide

/-- C9: saving a user, lesson-progress or quiz-response record through the
storage adapter and loading it back reproduces every field exactly,
including the timestamp fields (to the microsecond, hence to the second). -/
theorem C9_storage_roundtrip (u : Storage.User) (p : Storage.CourseProgress)
    (r : Storage.UserResponse)
    (hu1 : ValidDT u.last_active) (hu2 : ValidDT u.created_at)
    (hp : p.completed_at.elim True ValidDT) (hr : ValidDT r.timestamp) :
    Storage.deserializeUser (Storage.serializeUser u) = some u ∧
    Storage.deserializeProgress (Storage.serializeProgress p) = some p ∧
    Storage.deserializeResponse (Storage.serializeResponse r) = some r := by
  refine ⟨?_, ?_, ?_⟩
  · simp [Storage.serializeUser, Storage.deserializeUser,
      parseDateTime_fmtDateTime _ hu1, parseDateTime_fmtDateTime _ hu2]
  · obtain ⟨a1, a2, a3, a4, a5, a6, a7⟩ := p
    cases a6 with
    | none => simp [Storage.serializeProgress, Storage.deserializeProgress]
    | some t =>
        simp only [Option.elim] at hp
        simp [Storage.serializeProgress, Storage.deserializeProgress,
          parseDateTime_fmtDateTime _ hp]
  · simp [Storage.serializeResponse, Storage.deserializeResponse,
      parseDateTime_fmtDateTime _ hr]

theorem C9_witness :
    (ValidDT c9User.last_active ∧ ValidDT c9User.created_at ∧
      c9Prog.completed_at.elim True ValidDT ∧ ValidDT c9Resp.timestamp) ∧
    (Storage.deserializeUser (Storage.serializeUser c9User) = some c9User ∧
      Storage.deserializeProgress (Storage.serializeProgress c9Prog) =
        some c9Prog ∧
      Storage.deserializeResponse (Storage.serializeResponse c9Resp) =
        some c9Resp) :=
  ⟨⟨by decide, by decide, (by decide : ValidDT c9DT), by decide⟩,
   C9_storage_roundtrip c9User c9Prog c9Resp (by decide) (by decide)
     (by decide : ValidDT c9DT) (by decide)⟩
